import Mathlib

/-!
# Verification of the smart-llm-router core

A shallow embedding of the routing core of the `smart-llm-router` service:

* `services/conversation_state.py` — the conversation state store
  (`ConversationState`, `ConversationStateManager`);
* `services/classifier.py` — the classification engine
  (`MessageClassifier.classify_message`, `_normalize_category`);
* `services/router.py` — the routing decision engine
  (`SmartRouter.route_and_process`, `_determine_model_tier`,
  `_format_openai_response`);
* `clients/base.py` — the model-registry lookup, abstracted as a function
  `String → Option Resolved` (all of its failure paths return `None` for both
  the client and the physical model id simultaneously, and every success
  returns both, so the router's `not client or not model_id` test is exactly
  `Option.isNone`).

Python strings are embedded as Lean `String` with explicit re-implementations
of the Python primitives used by the source (`lower`, `strip`, `split`,
substring membership, `startswith`).  All text the source manipulates is
ASCII, for which `Char.toLower`/`Char.toUpper` agree with Python.

Wall-clock time (`last_activity`, the rate-limited eviction pass) and the md5
fingerprint hash are external effects: timestamps are omitted (eviction only
removes entries and never edits a surviving state), and the hash is a
parameter `hash : String → String` standing for
`hashlib.md5(sig.encode()).hexdigest()[:16]` — a fixed deterministic function,
so identical signatures always map to identical conversation ids.
-/

deriving instance DecidableEq for Except

namespace SmartRouter

/-! ## Python string primitives -/

/-- The characters Python's `str.strip()` / `str.split()` treat as whitespace
(ASCII fragment, which covers every string the source produces). -/
def pySpaceChars : List Char := [' ', '\t', '\n', '\r', '\x0b', '\x0c']

def isPySpace (c : Char) : Bool := pySpaceChars.contains c

/-- Python `str.lower()` (ASCII). -/
def pyLower (s : String) : String := ⟨s.data.map Char.toLower⟩

/-- Python `str.upper()` (ASCII). -/
def pyUpper (s : String) : String := ⟨s.data.map Char.toUpper⟩

/-- Python `str.strip()` with no argument: drop whitespace from both ends. -/
def pyStrip (s : String) : String :=
  ⟨((s.data.dropWhile isPySpace).reverse.dropWhile isPySpace).reverse⟩

/-- Python `str.strip(chars)`: drop any of `cs` from both ends. -/
def pyStripChars (cs : List Char) (s : String) : String :=
  ⟨((s.data.dropWhile cs.contains).reverse.dropWhile cs.contains).reverse⟩

/-- Python `needle in hay` on strings: substring membership
(the empty needle is a substring of everything, as in Python). -/
def pyIn (needle hay : String) : Bool :=
  hay.data.tails.any (fun t => needle.data.isPrefixOf t)

/-- Python `s.startswith(p)`. -/
def pyStartsWith (s p : String) : Bool := p.data.isPrefixOf s.data

/-- Python `s[:n]` on strings. -/
def pyTake (n : Nat) (s : String) : String := ⟨s.data.take n⟩

/-- Python `s[-n:]` on lists (`messages[-3:]`). -/
def pyLastN (n : Nat) (l : List α) : List α := l.drop (l.length - n)

def pySplitAux : List Char → List Char → List String
| [], acc => if acc.isEmpty then [] else [⟨acc.reverse⟩]
| c :: cs, acc =>
  if isPySpace c then
    if acc.isEmpty then pySplitAux cs [] else ⟨acc.reverse⟩ :: pySplitAux cs []
  else pySplitAux cs (c :: acc)

/-- Python `str.split()` with no argument: split on whitespace runs,
never producing empty words. -/
def pySplit (s : String) : List String := pySplitAux s.data []

/-- Python `" ".join(l)`. -/
def joinSpace (l : List String) : String := String.intercalate " " l

/-! ## Message model (`config/models.py`)

`Message.content : Union[str, List[Dict[str, Any]]]`.  A list element (a
content part) is consulted only through `part.get("type")` and
`part.get("text", "")`, so a part is embedded as that pair of optional
fields. -/

structure ContentPart where
  ptype : Option String
  ptext : Option String
deriving DecidableEq

inductive MsgContent where
| str : String → MsgContent
| parts : List ContentPart → MsgContent
deriving DecidableEq

structure Message where
  role : String
  content : MsgContent
deriving DecidableEq

/-- `_get_text_from_content` (identical in `conversation_state.py`,
`router.py` and `classifier.py`): a plain string is returned as-is; a part
list contributes the space-join of the `text` fields of its `type == "text"`
parts. -/
def get_text_from_content : MsgContent → String
| .str s => s
| .parts l =>
  joinSpace ((l.filter (fun p => p.ptype == some "text")).map (fun p => p.ptext.getD ""))

/-! ## Conversation state store (`services/conversation_state.py`) -/

/-- `ConversationState` dataclass.  `last_activity` (wall-clock) is omitted;
counters are embedded as `Int` exactly as Python integers. -/
structure ConversationState where
  conversation_id : String
  active_model_tier : String := "simple"
  last_model_used : Option String := none
  has_vision_content : Bool := false
  vision_sticky_count : Int := 0
  heavy_context_active : Bool := false
  heavy_context_sticky_count : Int := 0
  message_count_since_upgrade : Int := 0
  topic_keywords : List String := []
deriving DecidableEq

/-- `_generate_conversation_id`: `"empty_conversation"` for an empty list,
otherwise the md5-prefix hash (abstracted as `hash`) of the first message's
text truncated to 200 characters concatenated with `_` and the message
count. -/
def generate_conversation_id (hash : String → String) : List Message → String
| [] => "empty_conversation"
| m :: ms =>
  hash (pyTake 200 (get_text_from_content m.content) ++ "_" ++ toString (m :: ms).length)

/-- The stop-word set of `_extract_topic_keywords`. -/
def stopWords : List String :=
  ["the", "a", "an", "and", "or", "but", "in", "on", "at", "to", "for", "of",
   "with", "by", "is", "are", "was", "were", "be", "been", "have", "has",
   "had", "do", "does", "did", "will", "would", "could", "should", "can",
   "may", "might", "i", "you", "he", "she", "it", "we", "they", "this",
   "that", "these", "those"]

/-- The punctuation characters stripped from each word:
`".,!?;:()[]{}\"'"`. -/
def stripPunctChars : List Char :=
  ['.', ',', '!', '?', ';', ':', '(', ')', '[', ']', '\x7b', '\x7d', '"', '\x27']

/-- `_extract_topic_keywords`: on a non-empty list, take the last 3 messages,
keep the user ones, join their text with spaces, lower-case, split on
whitespace, strip surrounding punctuation from each word, keep words longer
than 3 characters that are not stop words, and cap at 10. -/
def extract_topic_keywords (messages : List Message) : List String :=
  match messages with
  | [] => []
  | _ =>
    let recent := pyLastN 3 messages
    let textContent :=
      pyLower (joinSpace ((recent.filter (fun m => m.role == "user")).map
        (fun m => get_text_from_content m.content)))
    let words := (pySplit textContent).map (pyStripChars stripPunctChars)
    let keywords := words.filter (fun w => decide (3 < w.length) && !(stopWords.contains w))
    keywords.take 10

/-- The spec's reading of the extraction source: Section 4.2 says keywords
come "from the last 3 user turns", i.e. the last three messages whose role is
`user`; the rest of the pipeline is as in `extract_topic_keywords`.  This
definition exists only to be compared against the source's
`extract_topic_keywords`, which instead filters the user messages out of the
last three messages of any role. -/
def specExtractTopicKeywords (messages : List Message) : List String :=
  match messages with
  | [] => []
  | _ =>
    let recent := pyLastN 3 (messages.filter (fun m => m.role == "user"))
    let textContent :=
      pyLower (joinSpace (recent.map (fun m => get_text_from_content m.content)))
    let words := (pySplit textContent).map (pyStripChars stripPunctChars)
    let keywords := words.filter (fun w => decide (3 < w.length) && !(stopWords.contains w))
    keywords.take 10

/-- The fixed explicit topic-change markers of `_detect_topic_change`. -/
def topicChangeIndicators : List String :=
  ["new topic", "different question", "now let\x27s", "switching to",
   "change subject", "moving on", "next question", "unrelated",
   "completely different", "new request", "forget about", "ignore that"]

/-- `_detect_topic_change`.  `messages[-1]` on an empty list raises an
`IndexError` in Python, embedded as `Except.error ()`.  The float test
`overlap / total_unique < 0.3` is embedded as the exact comparison
`10 * overlap < 3 * total`: both keyword lists have at most 10 entries, so
`total ≤ 20`, and for every rational `a/b` with `b ≤ 20` the IEEE-double
evaluation of `a/b < 0.3` agrees with the exact comparison (the nearest
fraction to 3/10 with denominator ≤ 20 other than 3/10 itself is about
6·10⁻³ away, far above double rounding error, and `a/b = 3/10` yields equal
doubles on both sides, hence no drift under either reading). -/
def detect_topic_change (messages : List Message) (st : ConversationState) :
    Except Unit Bool :=
  match messages.getLast? with
  | none => .error ()
  | some last =>
    let lastText := pyLower (get_text_from_content last.content)
    if topicChangeIndicators.any (fun ind => pyIn ind lastText) then .ok true
    else
      let currentKeywords := extract_topic_keywords messages
      let storedKeywords := st.topic_keywords
      if storedKeywords.isEmpty || currentKeywords.isEmpty then .ok false
      else
        let overlap := (currentKeywords.dedup.filter (fun w => storedKeywords.contains w)).length
        let totalUnique := (currentKeywords ++ storedKeywords).dedup.length
        if 0 < totalUnique ∧ 10 * overlap < 3 * totalUnique then .ok true else .ok false

/-- The store: the manager's `states` dict, as an association list keyed by
conversation id. -/
abbrev Store := List (String × ConversationState)

def storeFind (store : Store) (cid : String) : Option ConversationState :=
  (store.find? (fun e => e.1 == cid)).map (·.2)

def storeSet (store : Store) (cid : String) (st : ConversationState) : Store :=
  store.map (fun e => if e.1 == cid then (cid, st) else e)

/-- `get_or_create_state`.  On a lookup hit, runs topic-drift detection
(whose `IndexError` on an empty message list propagates); on drift, resets
the two sticky counters and `message_count_since_upgrade` to 0 and the tier
to `"simple"`, deliberately leaving `has_vision_content` (and
`heavy_context_active`) untouched.  Topic keywords are refreshed
unconditionally.  On a miss, creates a fresh state.  The opportunistic
eviction pass only deletes entries and is omitted. -/
def get_or_create_state (hash : String → String) (store : Store)
    (messages : List Message) : Except Unit (Store × ConversationState) :=
  match storeFind store (generate_conversation_id hash messages) with
  | some st =>
    match detect_topic_change messages st with
    | .error e => .error e
    | .ok drift =>
      let st1 :=
        if drift then
          { st with vision_sticky_count := 0, heavy_context_sticky_count := 0,
                    message_count_since_upgrade := 0, active_model_tier := "simple" }
        else st
      let st2 := { st1 with topic_keywords := extract_topic_keywords messages }
      .ok (storeSet store (generate_conversation_id hash messages) st2, st2)
  | none =>
    let st : ConversationState :=
      { conversation_id := generate_conversation_id hash messages,
        topic_keywords := extract_topic_keywords messages }
    let st2 := { st with topic_keywords := extract_topic_keywords messages }
    .ok ((generate_conversation_id hash messages, st2) :: store, st2)

/-- The vision-stickiness block of `update_state_after_routing`:
`had_vision` pins the flag, a sticky count of 3 and the `"hard"` tier;
otherwise a strictly positive count is decremented and the flag cleared when
it reaches 0. -/
def routingVisionStep (st : ConversationState) (had_vision : Bool) :
    ConversationState :=
  if had_vision then
    { st with has_vision_content := true, vision_sticky_count := 3,
              active_model_tier := "hard" }
  else if 0 < st.vision_sticky_count then
    if st.vision_sticky_count - 1 = 0 then
      { st with vision_sticky_count := st.vision_sticky_count - 1,
                has_vision_content := false }
    else { st with vision_sticky_count := st.vision_sticky_count - 1 }
  else st

/-- The heavy-context block of `update_state_after_routing`: same shape with
a sticky window of 2. -/
def routingHeavyStep (st : ConversationState) (had_heavy_context : Bool) :
    ConversationState :=
  if had_heavy_context then
    { st with heavy_context_active := true, heavy_context_sticky_count := 2,
              active_model_tier := "hard" }
  else if 0 < st.heavy_context_sticky_count then
    if st.heavy_context_sticky_count - 1 = 0 then
      { st with heavy_context_sticky_count := st.heavy_context_sticky_count - 1,
                heavy_context_active := false }
    else { st with heavy_context_sticky_count := st.heavy_context_sticky_count - 1 }
  else st

/-- The tier/counter block of `update_state_after_routing`. -/
def routingTierStep (st : ConversationState) (model_tier : String) :
    ConversationState :=
  if model_tier ≠ st.active_model_tier then
    { st with message_count_since_upgrade := 0, active_model_tier := model_tier }
  else
    { st with message_count_since_upgrade := st.message_count_since_upgrade + 1 }

/-- `update_state_after_routing`: records the selected model, then runs the
vision block, the heavy-context block and the tier block in source order. -/
def update_state_after_routing (st : ConversationState)
    (selected_model model_tier : String) (had_vision had_heavy_context : Bool) :
    ConversationState :=
  routingTierStep
    (routingHeavyStep
      (routingVisionStep { st with last_model_used := some selected_model } had_vision)
      had_heavy_context)
    model_tier

/-! ## Store operation sequences -/

structure UpdateArgs where
  selected_model : String
  model_tier : String
  had_vision : Bool
  had_heavy_context : Bool
deriving DecidableEq

/-- One store operation: a `get_or_create_state` call, or an
`update_state_after_routing` call applied to the state stored under a given
conversation id (the caller mutates the very object held by the table). -/
inductive StoreOp where
| getOrCreate : List Message → StoreOp
| routingUpdate : String → UpdateArgs → StoreOp
deriving DecidableEq

def applyStoreOp (hash : String → String) (store : Store) : StoreOp → Store
| .getOrCreate msgs =>
  match get_or_create_state hash store msgs with
  | .ok (s, _) => s
  | .error _ => store
| .routingUpdate cid a =>
  match storeFind store cid with
  | some st =>
    storeSet store cid
      (update_state_after_routing st a.selected_model a.model_tier a.had_vision a.had_heavy_context)
  | none => store

def applyStoreOps (hash : String → String) (store : Store) (ops : List StoreOp) : Store :=
  ops.foldl (applyStoreOp hash) store

/-- Sequencing `update_state_after_routing` calls on one state. -/
def applyUpdates (st : ConversationState) (l : List UpdateArgs) : ConversationState :=
  l.foldl (fun s a =>
    update_state_after_routing s a.selected_model a.model_tier a.had_vision a.had_heavy_context) st

/-- Both sticky counters are non-negative. -/
def countersNonneg (st : ConversationState) : Prop :=
  0 ≤ st.vision_sticky_count ∧ 0 ≤ st.heavy_context_sticky_count

/-- Counters non-negative, and each zero counter has its paired flag off. -/
def counterFlagInv (st : ConversationState) : Prop :=
  0 ≤ st.vision_sticky_count ∧ 0 ≤ st.heavy_context_sticky_count ∧
  (st.vision_sticky_count = 0 → st.has_vision_content = false) ∧
  (st.heavy_context_sticky_count = 0 → st.heavy_context_active = false)

instance (st : ConversationState) : Decidable (countersNonneg st) := by
  unfold countersNonneg; infer_instance

instance (st : ConversationState) : Decidable (counterFlagInv st) := by
  unfold counterFlagInv; infer_instance

/-! ## Routing decision engine (`services/router.py`)

The engine is modelled from the point where the vision / heavy-context /
title / escalation / research conditions have been evaluated (router.py
151-188) through registry resolution, fallback, the vision safety override,
the backend generate call and response normalization.  The registry
(`get_llm_client_and_model_details`) and the backend generate call are
external collaborators and enter as function parameters; every call the
engine makes to a collaborator is recorded as a `RouteEvent` so that
"no backend call attempted" and "routing memory persisted" are statable. -/

/-- The slice of `Settings` the routing core reads. -/
structure RSettings where
  simple_no_research_model : String
  simple_research_model : String
  hard_no_research_model : String
  hard_research_model : String
  escalation_model : String
  fallback_model : String
  classifier_model : String
  log_level : String
deriving DecidableEq

/-- A successful registry resolution: the provider client's `provider_name`
and the physical model id.  `get_llm_client_and_model_details` returns `none`
for unconfigured names, incomplete configurations and failed client
initialization; every success carries both a client and a model id, so the
router's `not client or not model_id` test is `Option.isNone`. -/
structure Resolved where
  provider_name : String
  model_id : String
deriving DecidableEq

/-- Calls the engine makes to its collaborators, in order. -/
inductive RouteEvent where
| resolve : String → RouteEvent
| generateCall : String → RouteEvent
| stateUpdate : RouteEvent
deriving DecidableEq

/-- An `HTTPException(status_code, detail)`. -/
structure HErr where
  status : Nat
  detail : String
deriving DecidableEq

/-- `_get_model_mappings` as a lookup (router.py 20-26). -/
def model_mappings (s : RSettings) (category : String) : Option String :=
  if category == "simple_no_research" then some s.simple_no_research_model
  else if category == "simple_research" then some s.simple_research_model
  else if category == "hard_no_research" then some s.hard_no_research_model
  else if category == "hard_research" then some s.hard_research_model
  else none

/-- `_determine_model_tier` (router.py 118-125): `"hard"` on vision or heavy
context, else `"hard"` / `"simple"` by substring test on the category, with
`"simple"` as the final default. -/
def determine_model_tier (category : String) (needs_vision needs_heavy_context : Bool) :
    String :=
  if needs_vision || needs_heavy_context then "hard"
  else if pyIn "hard" category then "hard"
  else if pyIn "simple" category then "simple"
  else "simple"

/-- The target-selection chain of `route_and_process` (router.py 151-188):
first-match over vision, heavy context, title generation, escalation and
explicit research, otherwise the classifier result (`category`) mapped
through `_get_model_mappings` with the fallback model as dictionary default.
Returns `(target_model, model_tier, classifier_called)`. -/
def select_target (s : RSettings) (needs_vision needs_heavy_context : Bool)
    (is_title is_escalation is_research : Bool) (category : String) :
    String × String × Bool :=
  if needs_vision then (s.hard_no_research_model, "hard", false)
  else if needs_heavy_context then (s.hard_no_research_model, "hard", false)
  else if is_title then (s.simple_no_research_model, "simple", false)
  else if is_escalation then (s.escalation_model, "escalation", false)
  else if is_research then ("Perplexity-Research", "research", false)
  else ((model_mappings s category).getD s.fallback_model,
        determine_model_tier category needs_vision needs_heavy_context, true)

/-- Step 5: registry resolution with one fallback retry (router.py 192-199).
On a miss for the target, resolution is retried once with the configured
fallback model; a second miss is a 500 server error. -/
def resolve_step5 (s : RSettings) (reg : String → Option Resolved) (target : String) :
    Except HErr (String × Resolved) × List RouteEvent :=
  match reg target with
  | some r => (.ok (target, r), [.resolve target])
  | none =>
    match reg s.fallback_model with
    | some r => (.ok (s.fallback_model, r), [.resolve target, .resolve s.fallback_model])
    | none =>
      (.error ⟨500, "No valid LLM client available"⟩,
       [.resolve target, .resolve s.fallback_model])

/-- Step 6, the vision safety override (router.py 209-221): if vision is
needed but the resolved provider is not `"gemini"`, re-resolve with the
configured escalation model; unless that yields a client whose provider is
`"gemini"`, fail with a 500. -/
def vision_override (s : RSettings) (reg : String → Option Resolved)
    (needs_vision : Bool) (target : String) (r : Resolved) :
    Except HErr (String × Resolved) × List RouteEvent :=
  if needs_vision && !(r.provider_name == "gemini") then
    match reg s.escalation_model with
    | some r2 =>
      if r2.provider_name == "gemini" then
        (.ok (s.escalation_model, r2), [.resolve s.escalation_model])
      else
        (.error ⟨500, "Cannot find Gemini model for vision task!"⟩,
         [.resolve s.escalation_model])
    | none =>
      (.error ⟨500, "Cannot find Gemini model for vision task!"⟩,
       [.resolve s.escalation_model])
  else (.ok (target, r), [])

/-! ## Response normalization (`_format_openai_response`, router.py 272-350) -/

structure Usage where
  prompt_tokens : Int
  completion_tokens : Int
  total_tokens : Int
deriving DecidableEq

/-- The `usage` attribute of an object-shaped reply; each field is read with
`getattr(usage, field, 0)`, so each may be absent. -/
structure UsageAttrs where
  prompt_tokens : Option Int
  completion_tokens : Option Int
  total_tokens : Option Int
deriving DecidableEq

/-- The backend reply shapes `_format_openai_response` discriminates, in the
source's test order: a dict with `"data"` and `object == "list"` (image
batch, payload kept opaque); a dict with `"error"`; an object with a
non-empty `choices` attribute (chat-completion object, optional `usage`
attribute); a dict with `"choices"` (optional `"usage"` key, copied
verbatim); a dict with `"message"` (ollama-like, optional
`prompt_eval_count` / `eval_count`); anything else. -/
inductive LLMResponse where
| imageBatch : List String → LLMResponse
| errorShaped : LLMResponse
| attrChoices : String → Option UsageAttrs → LLMResponse
| dictChoices : String → Option Usage → LLMResponse
| dictMessage : String → Option Int → Option Int → LLMResponse
| otherShape : LLMResponse
deriving DecidableEq

def zeroUsage : Usage := ⟨0, 0, 0⟩

structure FormattedResponse where
  model : String
  content : String
  usage : Usage
  images : Option (List String)
deriving DecidableEq

/-- Result of normalization: error-shaped replies are passed through
unchanged, everything else becomes the canonical chat-completion shape
(generated id / created timestamp omitted as external effects). -/
inductive FormatResult where
| passthrough : FormatResult
| formatted : FormattedResponse → FormatResult
deriving DecidableEq

/-- `_format_openai_response`. -/
def format_openai_response (log_level : String) (llm_response : LLMResponse)
    (model_name : String) : FormatResult :=
  match llm_response with
  | .imageBatch data =>
    .formatted { model := model_name,
                 content := "I\x27ve generated an image based on your request.",
                 usage := ⟨0, 10, 10⟩, images := some data }
  | .errorShaped => .passthrough
  | resp =>
    let pair : String × Usage :=
      match resp with
      | .attrChoices c u =>
        (c, match u with
            | some ua => ⟨ua.prompt_tokens.getD 0, ua.completion_tokens.getD 0,
                          ua.total_tokens.getD 0⟩
            | none => zeroUsage)
      | .dictChoices c u => (c, u.getD zeroUsage)
      | .dictMessage c pe ec => (c, ⟨pe.getD 0, ec.getD 0, pe.getD 0 + ec.getD 0⟩)
      | _ => ("An error occurred or no content was generated.", zeroUsage)
    let content :=
      if pyUpper log_level == "DEBUG" && !(pyStartsWith pair.1 (model_name ++ " - ")) then
        model_name ++ " - " ++ pair.1
      else pair.1
    .formatted { model := model_name, content := content, usage := pair.2, images := none }

/-- The outcome of `route_and_process` on success. -/
structure RouteSuccess where
  target : String
  resolved : Resolved
  result : FormatResult
deriving DecidableEq

/-- `route_and_process` from target selection onward (router.py 151-270):
select the target, resolve with one fallback retry, apply the vision safety
override, call the provider's generate (an exception becomes a 500 carrying
the message), normalize the reply.  The conversation state manager is never
invoked: router.py 149 sets `conversation_state = {}` with a placeholder
comment, so no `RouteEvent.stateUpdate` is ever emitted. -/
def route_pipeline (s : RSettings) (reg : String → Option Resolved)
    (needs_vision needs_heavy_context is_title is_escalation is_research : Bool)
    (category : String) (gen : Resolved → Except String LLMResponse) :
    Except HErr RouteSuccess × List RouteEvent :=
  match resolve_step5 s reg
      (select_target s needs_vision needs_heavy_context is_title is_escalation
        is_research category).1 with
  | (.error e, ev) => (.error e, ev)
  | (.ok (t1, r1), ev1) =>
    match vision_override s reg needs_vision t1 r1 with
    | (.error e, ev2) => (.error e, ev1 ++ ev2)
    | (.ok (t2, r2), ev2) =>
      match gen r2 with
      | .error msg =>
        (.error ⟨500, "Failed to generate response: " ++ msg⟩,
         ev1 ++ ev2 ++ [.generateCall r2.model_id])
      | .ok resp =>
        (.ok { target := t2, resolved := r2,
               result := format_openai_response s.log_level resp t2 },
         ev1 ++ ev2 ++ [.generateCall r2.model_id])

/-! ## Classification engine (`services/classifier.py`) -/

/-- The canonical labels, in the order `_normalize_category` tries them. -/
def validCategories : List String :=
  ["simple_no_research", "simple_research", "hard_no_research", "hard_research"]

/-- The substring-acceptance loop of `_normalize_category`: the first
canonical label contained in `category`, defaulting to
`"simple_no_research"`. -/
def firstMatchCategory (category : String) : String :=
  match validCategories.find? (fun v => pyIn v category) with
  | some v => v
  | none => "simple_no_research"

/-- What `json.loads` can do to a brace-led classifier reply: fail to decode;
yield an object whose `category` entry is absent (`data.get` then supplies
the default) or a string; or yield an object whose `category` value is not a
string, in which case the `in` test downstream raises a `TypeError`. -/
inductive JsonParseOutcome where
| decodeError : JsonParseOutcome
| objectCat : Option String → JsonParseOutcome
| objectCatNonString : JsonParseOutcome
deriving DecidableEq

/-- `_normalize_category` (classifier.py 167-185), parameterized by the
behavior of `json.loads` on the lowered, stripped reply.  A `TypeError`
escaping the substring loop is the `.error` case (it is caught by
`classify_message`'s `except`). -/
def normalize_category (jparse : String → JsonParseOutcome) (category : String) :
    Except Unit String :=
  if pyStartsWith (pyLower (pyStrip category)) "\x7b" then
    match jparse (pyLower (pyStrip category)) with
    | .decodeError => .ok "simple_no_research"
    | .objectCat v => .ok (firstMatchCategory (v.getD "simple_no_research"))
    | .objectCatNonString => .error ()
  else .ok (firstMatchCategory (pyLower (pyStrip category)))

/-- The shapes a classifier-model reply can take: an object with a non-empty
`choices` attribute carrying the message content, or anything else. -/
inductive ClassifierReply where
| withChoices : String → ClassifierReply
| other : ClassifierReply
deriving DecidableEq

/-- `classify_message` (classifier.py 127-165): empty message list or an
unavailable classifier model yield the default label; the transport call may
raise (`.error`), which the `except` turns into the default; a reply with
choices is stripped and lowered before normalization; any exception inside
the `try` — including a `TypeError` out of `_normalize_category` — also
yields the default. -/
def classify_message (s : RSettings) (reg : String → Option Resolved)
    (jparse : String → JsonParseOutcome) (transport : Except Unit ClassifierReply)
    (messages : List Message) : String :=
  match messages with
  | [] => "simple_no_research"
  | _ =>
    match reg s.classifier_model with
    | none => "simple_no_research"
    | some _ =>
      match transport with
      | .error _ => "simple_no_research"
      | .ok reply =>
        let category :=
          match reply with
          | .withChoices content => pyLower (pyStrip content)
          | .other => "simple_no_research"
        match normalize_category jparse category with
        | .ok r => r
        | .error _ => "simple_no_research"

/-! ## Lemmas: the stickiness invariants -/

lemma counterFlagInv_visionStep (st : ConversationState) (v : Bool)
    (h : counterFlagInv st) : counterFlagInv (routingVisionStep st v) := by
  obtain ⟨h1, h2, h3, h4⟩ := h
  unfold counterFlagInv routingVisionStep
  split_ifs <;> simp_all <;> omega

lemma counterFlagInv_heavyStep (st : ConversationState) (hc : Bool)
    (h : counterFlagInv st) : counterFlagInv (routingHeavyStep st hc) := by
  obtain ⟨h1, h2, h3, h4⟩ := h
  unfold counterFlagInv routingHeavyStep
  split_ifs <;> simp_all <;> omega

lemma counterFlagInv_tierStep (st : ConversationState) (t : String)
    (h : counterFlagInv st) : counterFlagInv (routingTierStep st t) := by
  obtain ⟨h1, h2, h3, h4⟩ := h
  unfold counterFlagInv routingTierStep
  split_ifs <;> simp_all

lemma counterFlagInv_lastModel (st : ConversationState) (m : String)
    (h : counterFlagInv st) : counterFlagInv { st with last_model_used := some m } := by
  obtain ⟨h1, h2, h3, h4⟩ := h
  exact ⟨h1, h2, h3, h4⟩

lemma counterFlagInv_update (st : ConversationState) (m t : String) (v hc : Bool)
    (h : counterFlagInv st) :
    counterFlagInv (update_state_after_routing st m t v hc) := by
  unfold update_state_after_routing
  exact counterFlagInv_tierStep _ _
    (counterFlagInv_heavyStep _ _
      (counterFlagInv_visionStep _ _ (counterFlagInv_lastModel st m h)))

lemma counterFlagInv_applyUpdates (st : ConversationState) (l : List UpdateArgs)
    (h : counterFlagInv st) : counterFlagInv (applyUpdates st l) := by
  induction l generalizing st with
  | nil => exact h
  | cons a l ih =>
    exact ih _ (counterFlagInv_update st a.selected_model a.model_tier a.had_vision
      a.had_heavy_context h)

lemma countersNonneg_visionStep (st : ConversationState) (v : Bool)
    (h : countersNonneg st) : countersNonneg (routingVisionStep st v) := by
  obtain ⟨h1, h2⟩ := h
  unfold countersNonneg routingVisionStep
  split_ifs <;> simp_all <;> omega

lemma countersNonneg_heavyStep (st : ConversationState) (hc : Bool)
    (h : countersNonneg st) : countersNonneg (routingHeavyStep st hc) := by
  obtain ⟨h1, h2⟩ := h
  unfold countersNonneg routingHeavyStep
  split_ifs <;> simp_all <;> omega

lemma countersNonneg_tierStep (st : ConversationState) (t : String)
    (h : countersNonneg st) : countersNonneg (routingTierStep st t) := by
  obtain ⟨h1, h2⟩ := h
  unfold countersNonneg routingTierStep
  split_ifs <;> simp_all

lemma countersNonneg_update (st : ConversationState) (m t : String) (v hc : Bool)
    (h : countersNonneg st) :
    countersNonneg (update_state_after_routing st m t v hc) := by
  unfold update_state_after_routing
  refine countersNonneg_tierStep _ _ (countersNonneg_heavyStep _ _ (countersNonneg_visionStep _ _ ?_))
  exact h

/-- Every state in a store has non-negative sticky counters. -/
def storeNonneg (store : Store) : Prop :=
  ∀ cid st, (cid, st) ∈ store → countersNonneg st

lemma storeNonneg_storeSet (store : Store) (cid : String) (st : ConversationState)
    (hstore : storeNonneg store) (hst : countersNonneg st) :
    storeNonneg (storeSet store cid st) := by
  intro cid' st' hmem
  unfold storeSet at hmem
  rcases List.mem_map.mp hmem with ⟨e, he, heq⟩
  by_cases hcid : (e.1 == cid) = true
  · rw [if_pos hcid] at heq
    cases heq
    exact hst
  · rw [if_neg hcid] at heq
    exact hstore cid' st' (heq ▸ he)

lemma storeFind_mem (store : Store) (cid : String) (st : ConversationState)
    (h : storeFind store cid = some st) : ∃ c, (c, st) ∈ store := by
  unfold storeFind at h
  rcases Option.map_eq_some'.mp h with ⟨e, hfind, he2⟩
  exact ⟨e.1, by
    have := List.mem_of_find?_eq_some hfind
    rwa [← he2, Prod.mk.eta] ⟩

lemma countersNonneg_getOrCreate (hash : String → String) (store : Store)
    (messages : List Message) (store' : Store) (st' : ConversationState)
    (hstore : storeNonneg store)
    (h : get_or_create_state hash store messages = .ok (store', st')) :
    storeNonneg store' ∧ countersNonneg st' := by
  unfold get_or_create_state at h
  split at h
  next st hfind =>
    split at h
    next e hdet => exact absurd h (by simp)
    next drift hdet =>
      simp only [Except.ok.injEq, Prod.mk.injEq] at h
      obtain ⟨hs, hst⟩ := h
      subst hst
      subst hs
      obtain ⟨c, hcmem⟩ := storeFind_mem store _ st hfind
      obtain ⟨hn1, hn2⟩ := hstore c st hcmem
      constructor
      · apply storeNonneg_storeSet store _ _ hstore
        cases drift <;> simp_all [countersNonneg]
      · cases drift <;> simp_all [countersNonneg]
  next hfind =>
    simp only [Except.ok.injEq, Prod.mk.injEq] at h
    obtain ⟨hs, hst⟩ := h
    subst hst
    subst hs
    constructor
    · intro cid'' st'' hmem
      rcases List.mem_cons.mp hmem with heq | hmem'
      · cases heq; exact ⟨le_refl 0, le_refl 0⟩
      · exact hstore cid'' st'' hmem'
    · exact ⟨le_refl 0, le_refl 0⟩

lemma storeNonneg_applyStoreOp (hash : String → String) (store : Store) (op : StoreOp)
    (hstore : storeNonneg store) : storeNonneg (applyStoreOp hash store op) := by
  cases op with
  | getOrCreate msgs =>
    simp only [applyStoreOp]
    split
    next s st hg => exact (countersNonneg_getOrCreate hash store msgs s st hstore hg).1
    next e hg => exact hstore
  | routingUpdate cid a =>
    simp only [applyStoreOp]
    split
    next st hfind =>
      obtain ⟨c, hcmem⟩ := storeFind_mem store cid st hfind
      exact storeNonneg_storeSet store cid _ hstore
        (countersNonneg_update st _ _ _ _ (hstore c st hcmem))
    next hfind => exact hstore

lemma storeNonneg_applyStoreOps (hash : String → String) (store : Store)
    (ops : List StoreOp) (hstore : storeNonneg store) :
    storeNonneg (applyStoreOps hash store ops) := by
  induction ops generalizing store with
  | nil => exact hstore
  | cons op ops ih => exact ih _ (storeNonneg_applyStoreOp hash store op hstore)

/-! ## Concrete example data used by counterexamples and witnesses -/

/-- A one-message conversation whose text contains the explicit topic-change
marker `"new topic"`, so any repeat `get_or_create_state` call on it declares
drift. -/
def exampleTopicMessages : List Message :=
  [⟨"user", .str "new topic please discuss elephants"⟩]

/-- A stand-in for the md5 fingerprint (any fixed deterministic function
exhibits the behavior, since identical message lists give identical
signatures). -/
def exampleHash : String → String := fun _ => "h"

/-- The state created for an empty message list. -/
def emptyConvState : ConversationState := { conversation_id := "empty_conversation" }

/-- Topic-drift detection as the spec words it in 4.2: identical to the
source's `detect_topic_change` except that keywords come from the last 3
*user turns* (`specExtractTopicKeywords`) instead of the user messages among
the last 3 messages.  Exists only for comparison against the source. -/
def specDetectTopicChange (messages : List Message) (st : ConversationState) :
    Except Unit Bool :=
  match messages.getLast? with
  | none => .error ()
  | some last =>
    let lastText := pyLower (get_text_from_content last.content)
    if topicChangeIndicators.any (fun ind => pyIn ind lastText) then .ok true
    else
      let currentKeywords := specExtractTopicKeywords messages
      let storedKeywords := st.topic_keywords
      if storedKeywords.isEmpty || currentKeywords.isEmpty then .ok false
      else
        let overlap := (currentKeywords.dedup.filter (fun w => storedKeywords.contains w)).length
        let totalUnique := (currentKeywords ++ storedKeywords).dedup.length
        if 0 < totalUnique ∧ 10 * overlap < 3 * totalUnique then .ok true else .ok false

/-- A conversation whose first and fourth messages are from the user with
disjoint vocabularies, separated by two assistant messages. -/
def c8Messages : List Message :=
  [⟨"user", .str "database architecture optimization systems"⟩,
   ⟨"assistant", .str "some answer text"⟩,
   ⟨"assistant", .str "more answer text"⟩,
   ⟨"user", .str "bananas monkeys jungle"⟩]

def c8State : ConversationState :=
  { conversation_id := "c",
    topic_keywords := ["database", "architecture", "optimization", "systems"] }

/-- 1 overlapping keyword out of 10 unique (ratio 0.1). -/
def ratioTenthMessages : List Message := [⟨"user", .str "alpha beta gamma delta epsilon"⟩]

def ratioTenthState : ConversationState :=
  { conversation_id := "c",
    topic_keywords := ["alpha", "zetaone", "zetatwo", "zetathree", "zetafour", "zetafive"] }

/-- 5 overlapping keywords out of 10 unique (ratio 0.5). -/
def ratioHalfMessages : List Message :=
  [⟨"user", .str "alpha beta gamma delta epsilon zetaone zetatwo zetathree zetafour zetafive"⟩]

def ratioHalfState : ConversationState :=
  { conversation_id := "c", topic_keywords := ["alpha", "beta", "gamma", "delta", "epsilon"] }

/-! ## Claim C3 -/

/-- C3: starting from any state with both sticky counters 0 and both flags
false (in particular a freshly created `ConversationState`), after any finite
sequence of `update_state_after_routing` calls with arbitrary arguments both
counters are non-negative and each paired flag is false whenever its counter
is 0. -/
theorem c3_update_sequences_preserve_sticky_invariants
    (st : ConversationState)
    (hv : st.vision_sticky_count = 0) (hh : st.heavy_context_sticky_count = 0)
    (hfv : st.has_vision_content = false) (hfh : st.heavy_context_active = false)
    (l : List UpdateArgs) : counterFlagInv (applyUpdates st l) :=
  counterFlagInv_applyUpdates st l
    ⟨by rw [hv], by rw [hh], fun _ => hfv, fun _ => hfh⟩

/-- Witness for C3 at a fresh state and a concrete two-call history
(a vision turn followed by a plain turn). -/
theorem c3_witness :
    counterFlagInv (applyUpdates { conversation_id := "c" }
      [⟨"model-a", "hard", true, false⟩, ⟨"model-b", "simple", false, false⟩]) :=
  c3_update_sequences_preserve_sticky_invariants
    { conversation_id := "c" } rfl rfl rfl rfl
    [⟨"model-a", "hard", true, false⟩, ⟨"model-b", "simple", false, false⟩]

/-! ## Claim C2 -/

/-- C2, counterexample: after `get_or_create_state` on a conversation, an
`update_state_after_routing` with `had_vision = true`, and a repeat
`get_or_create_state` whose last message carries the explicit marker
`"new topic"`, the stored state has `vision_sticky_count = 0` while
`has_vision_content = true` — a reachable state in which a counter is 0 but
its paired flag is not false. -/
theorem c2_counterexample_drift_reset_leaves_flag_set :
    (storeFind
      (applyStoreOps exampleHash []
        [.getOrCreate exampleTopicMessages,
         .routingUpdate "h" ⟨"m", "hard", true, false⟩,
         .getOrCreate exampleTopicMessages]) "h").map
      (fun st => (st.vision_sticky_count, st.has_vision_content)) = some (0, true) := by
  decide

/-- C2 as amended: for every `ConversationState` reachable by any sequence of
store operations, both sticky counters are non-negative (the flag-pairing
half of the original claim fails: the topic-drift reset zeroes the counters
but deliberately leaves the flags untouched). -/
theorem c2_reachable_counters_nonneg (hash : String → String)
    (ops : List StoreOp) (cid : String) (st : ConversationState)
    (hmem : (cid, st) ∈ applyStoreOps hash [] ops) : countersNonneg st :=
  storeNonneg_applyStoreOps hash [] ops (fun _ _ h => absurd h (List.not_mem_nil _))
    cid st hmem

/-- Witness for C2 at a concrete one-operation history. -/
theorem c2_witness :
    countersNonneg
      { conversation_id := "h",
        topic_keywords := ["topic", "please", "discuss", "elephants"] } :=
  c2_reachable_counters_nonneg exampleHash [.getOrCreate exampleTopicMessages] "h" _
    (by decide)

/-! ## Claim C10 -/

/-- C10, counterexample: the first `get_or_create_state` call with an empty
message list succeeds and creates the shared `"empty_conversation"` state,
but a second call with an empty message list hits the stored state and fails
(`messages[-1]` inside `_detect_topic_change` raises `IndexError` on an empty
list) — so empty-message calls do not "never fail". -/
theorem c10_counterexample_second_empty_call_fails :
    get_or_create_state exampleHash [] [] =
      .ok ([("empty_conversation", emptyConvState)], emptyConvState) ∧
    get_or_create_state exampleHash [("empty_conversation", emptyConvState)] [] =
      .error () := by
  exact ⟨rfl, rfl⟩

/-- C10 as amended: the fingerprint computation is total and returns
`"empty_conversation"` for every empty list, and the first empty-message call
resolves to the single shared state; but once that state exists, every
further empty-message call fails with the embedded `IndexError` from
topic-change detection. -/
theorem c10_empty_conversation_fingerprint (hash : String → String) :
    generate_conversation_id hash [] = "empty_conversation" ∧
    get_or_create_state hash [] [] =
      .ok ([("empty_conversation", emptyConvState)], emptyConvState) ∧
    (∀ store st, storeFind store "empty_conversation" = some st →
      get_or_create_state hash store [] = .error ()) := by
  refine ⟨rfl, rfl, ?_⟩
  intro store st hfind
  unfold get_or_create_state
  rw [show generate_conversation_id hash [] = "empty_conversation" from rfl, hfind]
  rfl

/-- Witness for C10 at a concrete populated store. -/
theorem c10_witness :
    get_or_create_state exampleHash [("empty_conversation", emptyConvState)] [] =
      .error () :=
  (c10_empty_conversation_fingerprint exampleHash).2.2
    [("empty_conversation", emptyConvState)] emptyConvState rfl

/-! ## Claim C8 -/

/-- C8, counterexample: the claim reads the freshly extracted keyword set as
coming "from the last 3 user turns".  On a conversation whose last three
messages include two assistant replies, the source extracts keywords only
from the user messages among the last 3 messages, so on `c8Messages`
(stored keywords from the first user message) the source declares drift
(`overlap 0/7`) while the claim's reading of the extraction sees `4/7 ≈ 0.57`
and declares none. -/
theorem c8_counterexample_user_turn_window :
    detect_topic_change c8Messages c8State = .ok true ∧
    specDetectTopicChange c8Messages c8State = .ok false := by
  decide

/-- C8 as amended (keywords extracted from the user messages among the last 3
messages): drift is declared iff the last message's lowered text contains an
explicit marker, or both the freshly extracted and the stored keyword sets
are non-empty and `|current ∩ stored| / |current ∪ stored| < 0.3`; in
particular a ratio of 0.1 declares drift and a ratio of 0.5 does not, and no
drift is declared when either keyword set is empty. -/
theorem c8_topic_drift_iff (messages : List Message) (st : ConversationState)
    (last : Message) (hlast : messages.getLast? = some last) :
    (detect_topic_change messages st = .ok true ↔
      (topicChangeIndicators.any
          (fun ind => pyIn ind (pyLower (get_text_from_content last.content))) = true ∨
        (extract_topic_keywords messages ≠ [] ∧ st.topic_keywords ≠ [] ∧
          10 * ((extract_topic_keywords messages).dedup.filter
              (fun w => st.topic_keywords.contains w)).length <
            3 * (extract_topic_keywords messages ++ st.topic_keywords).dedup.length))) ∧
    detect_topic_change ratioTenthMessages ratioTenthState = .ok true ∧
    detect_topic_change ratioHalfMessages ratioHalfState = .ok false := by
  refine ⟨?_, by decide, by decide⟩
  unfold detect_topic_change
  rw [hlast]
  by_cases hA : topicChangeIndicators.any
      (fun ind => pyIn ind (pyLower (get_text_from_content last.content))) = true
  · simp [hA]
  · rw [Bool.not_eq_true] at hA
    simp only [hA, Bool.false_eq_true, if_false, false_or]
    by_cases hS : st.topic_keywords.isEmpty = true
    · have hS' : st.topic_keywords = [] := List.isEmpty_iff.mp hS
      simp [hS, hS']
    · by_cases hC : (extract_topic_keywords messages).isEmpty = true
      · have hC' : extract_topic_keywords messages = [] := List.isEmpty_iff.mp hC
        simp [hS, hC, hC']
      · have hS' : st.topic_keywords ≠ [] := fun h => hS (List.isEmpty_iff.mpr h)
        have hC' : extract_topic_keywords messages ≠ [] :=
          fun h => hC (List.isEmpty_iff.mpr h)
        have htu : 0 < (extract_topic_keywords messages ++ st.topic_keywords).dedup.length := by
          apply List.length_pos.mpr
          intro hnil
          exact hC' (List.append_eq_nil.mp ((List.dedup_eq_nil _).mp hnil)).1
        rw [Bool.not_eq_true] at hS hC
        simp only [hS, hC, Bool.or_self, Bool.false_eq_true, if_false]
        by_cases hr :
            10 * ((extract_topic_keywords messages).dedup.filter
                (fun w => st.topic_keywords.contains w)).length <
              3 * (extract_topic_keywords messages ++ st.topic_keywords).dedup.length
        · simp [htu, hr, hC', hS']
        · simp [htu, hr, hC', hS']

/-- Witness for C8: the iff applied to the concrete 0.1-ratio conversation. -/
theorem c8_witness :
    detect_topic_change ratioTenthMessages ratioTenthState = .ok true :=
  ((c8_topic_drift_iff ratioTenthMessages ratioTenthState
      ⟨"user", .str "alpha beta gamma delta epsilon"⟩ rfl).1).mpr (by decide)

/-! ## Router claim helpers -/

lemma stateUpdate_not_mem_resolve_step5 (s : RSettings) (reg : String → Option Resolved)
    (t : String) : RouteEvent.stateUpdate ∉ (resolve_step5 s reg t).2 := by
  unfold resolve_step5
  rcases hr : reg t with _ | r
  · rcases hf : reg s.fallback_model with _ | r2 <;> simp
  · simp

lemma stateUpdate_not_mem_vision_override (s : RSettings) (reg : String → Option Resolved)
    (nv : Bool) (t : String) (r : Resolved) :
    RouteEvent.stateUpdate ∉ (vision_override s reg nv t r).2 := by
  unfold vision_override
  split
  · cases reg s.escalation_model with
    | none => simp
    | some r2 => by_cases hge : (r2.provider_name == "gemini") = true <;> simp [hge]
  · simp

/-- If vision is needed, a successful vision override always carries a
`"gemini"` client. -/
lemma vision_override_ok_gemini (s : RSettings) (reg : String → Option Resolved)
    (t t2 : String) (r r2 : Resolved)
    (h : (vision_override s reg true t r).1 = .ok (t2, r2)) :
    r2.provider_name = "gemini" := by
  rcases hvo : vision_override s reg true t r with ⟨vres, vev⟩
  rw [hvo] at h
  have h' : vres = .ok (t2, r2) := h
  subst h'
  unfold vision_override at hvo
  split at hvo
  next hcond =>
    split at hvo
    next re hre =>
      split at hvo
      next hge =>
        simp only [Prod.mk.injEq, Except.ok.injEq] at hvo
        obtain ⟨⟨he1, he2⟩, hee⟩ := hvo
        rw [← he2]
        exact eq_of_beq hge
      next hge => simp at hvo
    next hre => simp at hvo
  next hcond =>
    simp only [Prod.mk.injEq, Except.ok.injEq] at hvo
    obtain ⟨⟨h1, h2⟩, hee⟩ := hvo
    rw [← h2]
    have hx : (r.provider_name == "gemini") = true := by
      revert hcond
      cases hbe : (r.provider_name == "gemini") <;> simp
    exact eq_of_beq hx

/-! ## Claim C1 -/

/-- C1 (code-bug evidence): the routing decision engine never invokes the
conversation state store at all — `route_and_process` holds only the
placeholder `conversation_state = {}` (router.py 149) and never calls
`update_state_after_routing`, on any input and on every path, including after
a successful generate call. -/
theorem c1_router_never_persists_routing_memory
    (s : RSettings) (reg : String → Option Resolved)
    (nv nh ti esc res : Bool) (category : String)
    (gen : Resolved → Except String LLMResponse) :
    RouteEvent.stateUpdate ∉ (route_pipeline s reg nv nh ti esc res category gen).2 := by
  unfold route_pipeline
  split
  next e ev heq =>
    have h1 := stateUpdate_not_mem_resolve_step5 s reg
      (select_target s nv nh ti esc res category).1
    rw [heq] at h1
    exact h1
  next t1 r1 ev1 heq1 =>
    have h1 := stateUpdate_not_mem_resolve_step5 s reg
      (select_target s nv nh ti esc res category).1
    rw [heq1] at h1
    split
    next e ev2 heq2 =>
      have h2 := stateUpdate_not_mem_vision_override s reg nv t1 r1
      rw [heq2] at h2
      simp only [List.mem_append]
      rintro (hm | hm)
      · exact h1 hm
      · exact h2 hm
    next t2 r2 ev2 heq2 =>
      have h2 := stateUpdate_not_mem_vision_override s reg nv t1 r1
      rw [heq2] at h2
      split <;>
      · simp only [List.mem_append, List.mem_singleton]
        rintro ((hm | hm) | hm)
        · exact h1 hm
        · exact h2 hm
        · exact RouteEvent.noConfusion hm

/-! ## Concrete router inputs for witnesses -/

def exampleSettings : RSettings :=
  { simple_no_research_model := "simple-nr", simple_research_model := "simple-r",
    hard_no_research_model := "hard-nr", hard_research_model := "hard-r",
    escalation_model := "esc-model", fallback_model := "fallback-model",
    classifier_model := "classifier-model", log_level := "INFO" }

/-- A registry where only the escalation model resolves to the gemini
provider; everything else resolves to an openai client. -/
def exampleRegistry : String → Option Resolved := fun n =>
  if n == "esc-model" then some ⟨"gemini", "gemini-pro"⟩ else some ⟨"openai", "gpt"⟩

def exampleGen : Resolved → Except String LLMResponse := fun _ => .ok (.dictChoices "ok" none)

/-! ## Claim C4 -/

/-- C4: with vision need established, (1) every successfully routed request
is answered by a `"gemini"`-provider client; (2) whenever the provider
resolved in step 5 is not `"gemini"`, the engine re-resolves with the
configured escalation model, and fails with a 500 server error unless that
resolution yields a `"gemini"` client (in which case routing continues on the
escalation model); (3) an override failure is the request's failure. -/
theorem c4_vision_never_served_by_non_vision_provider
    (s : RSettings) (reg : String → Option Resolved)
    (nv nh ti esc res : Bool) (category : String)
    (gen : Resolved → Except String LLMResponse)
    (hnv : nv = true) :
    (∀ ok ev, route_pipeline s reg nv nh ti esc res category gen = (.ok ok, ev) →
      ok.resolved.provider_name = "gemini") ∧
    (∀ t r, r.provider_name ≠ "gemini" →
      (vision_override s reg nv t r).2 = [RouteEvent.resolve s.escalation_model] ∧
      (reg s.escalation_model = none →
        (vision_override s reg nv t r).1 =
          .error ⟨500, "Cannot find Gemini model for vision task!"⟩) ∧
      (∀ r2, reg s.escalation_model = some r2 → r2.provider_name ≠ "gemini" →
        (vision_override s reg nv t r).1 =
          .error ⟨500, "Cannot find Gemini model for vision task!"⟩) ∧
      (∀ r2, reg s.escalation_model = some r2 → r2.provider_name = "gemini" →
        (vision_override s reg nv t r).1 = .ok (s.escalation_model, r2))) ∧
    (∀ t r ev5 e ev6,
      resolve_step5 s reg (select_target s nv nh ti esc res category).1 = (.ok (t, r), ev5) →
      vision_override s reg nv t r = (.error e, ev6) →
      (route_pipeline s reg nv nh ti esc res category gen).1 = .error e) := by
  subst hnv
  refine ⟨?_, ?_, ?_⟩
  · intro ok ev hok
    unfold route_pipeline at hok
    split at hok
    next e ev' heq => simp at hok
    next t1 r1 ev1 heq1 =>
      split at hok
      next e ev2 heq2 => simp at hok
      next t2 r2 ev2 heq2 =>
        split at hok
        next msg hg => simp at hok
        next resp hg =>
          simp only [Prod.mk.injEq, Except.ok.injEq] at hok
          rw [← hok.1]
          exact vision_override_ok_gemini s reg t1 t2 r1 r2 (by rw [heq2])
  · intro t r hng
    have hb : (r.provider_name == "gemini") = false := by
      cases hbe : r.provider_name == "gemini"
      · rfl
      · exact absurd (eq_of_beq hbe) hng
    unfold vision_override
    rw [if_pos (by simp [hb])]
    refine ⟨?_, ?_, ?_, ?_⟩
    · cases hre : reg s.escalation_model with
      | none => simp [hre]
      | some re => by_cases h : (re.provider_name == "gemini") = true <;> simp [hre, h]
    · intro hnone
      simp only [hnone]
    · intro r2 hsome hng2
      have hb2 : (r2.provider_name == "gemini") = false := by
        cases hbe : r2.provider_name == "gemini"
        · rfl
        · exact absurd (eq_of_beq hbe) hng2
      simp only [hsome, hb2, Bool.false_eq_true, if_false]
    · intro r2 hsome hg2
      simp only [hsome, hg2, beq_self_eq_true, if_pos]
  · intro t r ev5 e ev6 h5 h6
    unfold route_pipeline
    simp only [h5, h6]

/-- Witness for C4: on `exampleRegistry` the hard-tier model resolves to an
openai client, the override re-resolves to the gemini escalation model, and
the request succeeds on the gemini provider. -/
theorem c4_witness :
    (⟨"esc-model", ⟨"gemini", "gemini-pro"⟩,
      .formatted ⟨"esc-model", "ok", zeroUsage, none⟩⟩ : RouteSuccess).resolved.provider_name
      = "gemini" :=
  (c4_vision_never_served_by_non_vision_provider exampleSettings exampleRegistry
      true false false false false "anything" exampleGen rfl).1
    ⟨"esc-model", ⟨"gemini", "gemini-pro"⟩, .formatted ⟨"esc-model", "ok", zeroUsage, none⟩⟩
    [.resolve "hard-nr", .resolve "esc-model", .generateCall "gemini-pro"]
    (by decide)

/-! ## Claim C5 -/

/-- C5: when registry resolution of the selected target returns no client,
resolution is retried exactly once with the configured fallback model, and
the routing continues on the fallback; when the fallback also misses, the
request fails as a 500 server error, the event trace is exactly the two
resolution attempts, and no backend generate call is attempted. -/
theorem c5_fallback_retry_then_server_error
    (s : RSettings) (reg : String → Option Resolved)
    (nv nh ti esc res : Bool) (category : String)
    (gen : Resolved → Except String LLMResponse) :
    (∀ t r, reg t = none → reg s.fallback_model = some r →
      resolve_step5 s reg t =
        (.ok (s.fallback_model, r), [.resolve t, .resolve s.fallback_model])) ∧
    (reg (select_target s nv nh ti esc res category).1 = none →
      reg s.fallback_model = none →
      route_pipeline s reg nv nh ti esc res category gen =
        (.error ⟨500, "No valid LLM client available"⟩,
         [.resolve (select_target s nv nh ti esc res category).1,
          .resolve s.fallback_model]) ∧
      ∀ mid, RouteEvent.generateCall mid ∉
        (route_pipeline s reg nv nh ti esc res category gen).2) := by
  constructor
  · intro t r h1 h2
    unfold resolve_step5
    simp only [h1, h2]
  · intro h1 h2
    have hr5 : resolve_step5 s reg (select_target s nv nh ti esc res category).1 =
        (.error ⟨500, "No valid LLM client available"⟩,
         [.resolve (select_target s nv nh ti esc res category).1,
          .resolve s.fallback_model]) := by
      unfold resolve_step5
      simp only [h1, h2]
    constructor
    · unfold route_pipeline
      simp only [hr5]
    · intro mid
      unfold route_pipeline
      simp only [hr5]
      simp

/-- Witness for C5: with an everywhere-empty registry the pipeline fails with
the 500 and its trace is the two resolution attempts. -/
theorem c5_witness :
    route_pipeline exampleSettings (fun _ => none) false false false false false "x"
        exampleGen =
      (.error ⟨500, "No valid LLM client available"⟩,
       [.resolve "fallback-model", .resolve "fallback-model"]) :=
  ((c5_fallback_retry_then_server_error exampleSettings (fun _ => none)
      false false false false false "x" exampleGen).2 rfl rfl).1

/-! ## Claim C7 -/

/-- C7: target/tier selection is first-match with short-circuit in the order
vision, heavy context, title generation, escalation, explicit research,
classifier; vision yields the hard-tier non-research model with tier
`"hard"`; research is fixed to the designated research model
(`"Perplexity-Research"`); and the classifier is consulted exactly when all
five earlier conditions are false. -/
theorem c7_first_match_target_selection
    (s : RSettings) (nv nh ti esc res : Bool) (category : String) :
    (nv = true →
      select_target s nv nh ti esc res category = (s.hard_no_research_model, "hard", false)) ∧
    (nv = false → nh = true →
      select_target s nv nh ti esc res category = (s.hard_no_research_model, "hard", false)) ∧
    (nv = false → nh = false → ti = true →
      select_target s nv nh ti esc res category =
        (s.simple_no_research_model, "simple", false)) ∧
    (nv = false → nh = false → ti = false → esc = true →
      select_target s nv nh ti esc res category = (s.escalation_model, "escalation", false)) ∧
    (nv = false → nh = false → ti = false → esc = false → res = true →
      select_target s nv nh ti esc res category = ("Perplexity-Research", "research", false)) ∧
    (nv = false → nh = false → ti = false → esc = false → res = false →
      select_target s nv nh ti esc res category =
        ((model_mappings s category).getD s.fallback_model,
         determine_model_tier category nv nh, true)) ∧
    ((select_target s nv nh ti esc res category).2.2 = true ↔
      (nv = false ∧ nh = false ∧ ti = false ∧ esc = false ∧ res = false)) := by
  cases nv <;> cases nh <;> cases ti <;> cases esc <;> cases res <;>
    simp [select_target]

/-- Witness for C7: the vision branch at concrete settings. -/
theorem c7_witness :
    select_target exampleSettings true false false false false "anything" =
      (exampleSettings.hard_no_research_model, "hard", false) :=
  (c7_first_match_target_selection exampleSettings true false false false false
    "anything").1 rfl

/-! ## Claim C6 -/

lemma firstMatchCategory_mem (c : String) : firstMatchCategory c ∈ validCategories := by
  unfold firstMatchCategory
  cases hf : validCategories.find? (fun v => pyIn v c) with
  | some v => exact List.mem_of_find?_eq_some hf
  | none => simp [validCategories]

lemma normalize_category_ok_mem (jparse : String → JsonParseOutcome) (c r : String)
    (h : normalize_category jparse c = .ok r) : r ∈ validCategories := by
  unfold normalize_category at h
  split at h
  · cases hj : jparse (pyLower (pyStrip c)) with
    | decodeError =>
      rw [hj] at h
      simp only [Except.ok.injEq] at h
      rw [← h]
      simp [validCategories]
    | objectCat v =>
      rw [hj] at h
      simp only [Except.ok.injEq] at h
      rw [← h]
      exact firstMatchCategory_mem _
    | objectCatNonString => rw [hj] at h; exact absurd h (by simp)
  · simp only [Except.ok.injEq] at h
    rw [← h]
    exact firstMatchCategory_mem _

/-- C6: `classify_message` is total and always returns one of the four
canonical labels; empty input, an unavailable classifier model and a
transport error each yield the default; the substring-acceptance loop is
first-match in the listed order with the default on no match; a non-JSON
reply is normalized from its lowered, trimmed text; a brace-led reply is
normalized from its JSON `category` field (defaulting when absent), a decode
failure yields the default, and a non-string `category` raises inside
normalization (caught by `classify_message`'s handler). -/
theorem c6_classifier_never_raises_and_normalizes
    (s : RSettings) (reg : String → Option Resolved)
    (jparse : String → JsonParseOutcome) (transport : Except Unit ClassifierReply)
    (messages : List Message) :
    classify_message s reg jparse transport messages ∈ validCategories ∧
    (messages = [] →
      classify_message s reg jparse transport messages = "simple_no_research") ∧
    (reg s.classifier_model = none →
      classify_message s reg jparse transport messages = "simple_no_research") ∧
    (transport = .error () →
      classify_message s reg jparse transport messages = "simple_no_research") ∧
    (∀ c, firstMatchCategory c =
      (if pyIn "simple_no_research" c = true then "simple_no_research"
       else if pyIn "simple_research" c = true then "simple_research"
       else if pyIn "hard_no_research" c = true then "hard_no_research"
       else if pyIn "hard_research" c = true then "hard_research"
       else "simple_no_research")) ∧
    (∀ c, pyStartsWith (pyLower (pyStrip c)) "\x7b" = false →
      normalize_category jparse c = .ok (firstMatchCategory (pyLower (pyStrip c)))) ∧
    (∀ c, pyStartsWith (pyLower (pyStrip c)) "\x7b" = true →
      (jparse (pyLower (pyStrip c)) = .decodeError →
        normalize_category jparse c = .ok "simple_no_research") ∧
      (∀ v, jparse (pyLower (pyStrip c)) = .objectCat v →
        normalize_category jparse c = .ok (firstMatchCategory (v.getD "simple_no_research"))) ∧
      (jparse (pyLower (pyStrip c)) = .objectCatNonString →
        normalize_category jparse c = .error ())) := by
  refine ⟨?_, ?_, ?_, ?_, ?_, ?_, ?_⟩
  · unfold classify_message
    cases messages with
    | nil => simp [validCategories]
    | cons m ms =>
      cases hreg : reg s.classifier_model with
      | none => simp [validCategories]
      | some rc =>
        cases transport with
        | error e => simp [validCategories]
        | ok reply =>
          cases hn : normalize_category jparse
              (match reply with
               | .withChoices content => pyLower (pyStrip content)
               | .other => "simple_no_research") with
          | ok r =>
            simp only [hn]
            exact normalize_category_ok_mem jparse _ r hn
          | error e =>
            simp only [hn]
            simp [validCategories]
  · intro h
    subst h
    rfl
  · intro h
    cases messages with
    | nil => rfl
    | cons m ms =>
      unfold classify_message
      simp only [h]
  · intro h
    subst h
    cases messages with
    | nil => rfl
    | cons m ms =>
      unfold classify_message
      cases hreg : reg s.classifier_model <;> simp [hreg]
  · intro c
    unfold firstMatchCategory validCategories
    by_cases h1 : pyIn "simple_no_research" c = true <;>
      by_cases h2 : pyIn "simple_research" c = true <;>
        by_cases h3 : pyIn "hard_no_research" c = true <;>
          by_cases h4 : pyIn "hard_research" c = true <;>
            simp [List.find?, h1, h2, h3, h4]
  · intro c h
    unfold normalize_category
    simp only [h, Bool.false_eq_true, if_false]
  · intro c h
    refine ⟨?_, ?_, ?_⟩
    · intro hj
      unfold normalize_category
      simp only [h, if_true, hj]
    · intro v hj
      unfold normalize_category
      simp only [h, if_true, hj]
    · intro hj
      unfold normalize_category
      simp only [h, if_true, hj]

/-- Witness for C6: a transport failure at concrete inputs degrades to the
default label. -/
theorem c6_witness :
    classify_message exampleSettings exampleRegistry (fun _ => .decodeError)
      (.error ()) [⟨"user", .str "hello"⟩] = "simple_no_research" :=
  (c6_classifier_never_raises_and_normalizes exampleSettings exampleRegistry
    (fun _ => .decodeError) (.error ()) [⟨"user", .str "hello"⟩]).2.2.2.1 rfl

/-! ## Claim C9 -/

/-- The `usage` object of a normalized (non-passthrough) reply. -/
def formattedUsage : FormatResult → Option Usage
| .passthrough => none
| .formatted f => some f.usage

/-- C9, counterexample: a chat-completion-shaped backend reply whose own
usage dict reports `total_tokens = 5` with `prompt_tokens = 1` and
`completion_tokens = 1` is copied verbatim into the canonical response, so
the resulting usage violates `total = prompt + completion`. -/
theorem c9_counterexample_usage_copied_verbatim :
    format_openai_response "INFO" (.dictChoices "hi" (some ⟨1, 1, 5⟩)) "model-m" =
      .formatted ⟨"model-m", "hi", ⟨1, 1, 5⟩, none⟩ ∧
    ((⟨1, 1, 5⟩ : Usage).total_tokens ≠
      (⟨1, 1, 5⟩ : Usage).prompt_tokens + (⟨1, 1, 5⟩ : Usage).completion_tokens) := by
  exact ⟨rfl, by decide⟩

/-- C9 as amended: ollama-message-like replies always get
`total = prompt + completion` (all three zero when unreported); chat-
completion-like replies copy the backend's usage verbatim — field-by-field
with per-field zero defaults for the object shape, whole-dict with an
all-zero default for the dict shape — so the sum identity holds only if the
backend's own counts satisfy it; image-batch replies carry the fixed usage
`(0, 10, 10)` rather than zeros; unrecognized shapes get all-zero usage. -/
theorem c9_usage_normalization (log_level mn c : String) (u : Usage) (ua : UsageAttrs)
    (pe ec : Option Int) (data : List String) :
    (formattedUsage (format_openai_response log_level (.dictMessage c pe ec) mn) =
      some ⟨pe.getD 0, ec.getD 0, pe.getD 0 + ec.getD 0⟩) ∧
    (formattedUsage (format_openai_response log_level (.dictChoices c none) mn) =
      some zeroUsage) ∧
    (formattedUsage (format_openai_response log_level (.dictChoices c (some u)) mn) =
      some u) ∧
    (formattedUsage (format_openai_response log_level (.attrChoices c none) mn) =
      some zeroUsage) ∧
    (formattedUsage (format_openai_response log_level (.attrChoices c (some ua)) mn) =
      some ⟨ua.prompt_tokens.getD 0, ua.completion_tokens.getD 0, ua.total_tokens.getD 0⟩) ∧
    (formattedUsage (format_openai_response log_level (.imageBatch data) mn) =
      some ⟨0, 10, 10⟩) ∧
    (formattedUsage (format_openai_response log_level .otherShape mn) = some zeroUsage) :=
  ⟨rfl, rfl, rfl, rfl, rfl, rfl, rfl⟩

end SmartRouter
